import Mathlib

/-!
Shallow embedding of the CareerNav backend (`src/backend/app.py`) for
verification of its résumé-processing endpoints.

The repository ships only `backend/app.py`; the extraction utilities
(`utils.resume_extractor`), the Gemini AI service and the configuration
module are external collaborators.  They are modelled as oracles: each
call a handler makes to a collaborator is an `Except String` value ("the
call either returns this value or raises this exception"), supplied as a
parameter.  The Flask handlers themselves are translated line by line.

Filesystem effects are modelled by threading a list of existing paths
through each handler; the handler result also records which paths were
saved and which paths were passed to `extract_resume_text`, so that
claims about cleanup and about "extraction was attempted" are statable.
-/

namespace CareerNav

/-- JSON values, the shape of Flask `jsonify` response bodies. -/
inductive Json where
  | null : Json
  | jbool : Bool → Json
  | jnum : Nat → Json
  | jstr : String → Json
  | jarr : List Json → Json
  | jobj : List (String × Json) → Json
deriving Repr

/-- Look a key up in a JSON object (first binding wins, as in a dict). -/
def Json.getKey (j : Json) (k : String) : Option Json :=
  match j with
  | .jobj fields => fields.lookup k
  | _ => none

/-- The keys of a JSON object, in insertion order. -/
def Json.objKeys : Json → List String
  | .jobj fields => fields.map Prod.fst
  | _ => []

/-- An uploaded multipart file: client-supplied filename plus raw bytes. -/
structure FileUpload where
  filename : String
  content : List Nat
deriving Repr

/-- The structured profile returned by `extract_basic_info`
(a Python dict; the spec fixes exactly these fields). -/
structure BasicInfo where
  email : Option String
  skills : List String
  skills_summary : List (String × List String)
  experience_keywords : List String
  education_keywords : List String
  experience_entries : List String
  project_entries : List String
deriving Repr

/-- `utils.resume_extractor` collaborators, as call oracles: each function
maps its arguments to either a returned value (`.ok`) or a raised Python
exception rendered as its message string (`.error`). -/
structure Collaborators where
  extract_resume_text : String → Except String String
  clean_extracted_text : String → Except String String
  extract_basic_info : String → String → Except String BasicInfo

/-- The Gemini AI collaborator.  Its four methods are opaque externals;
we record only the outcome of each call made during the request (the
arguments the handler passes are elided, since the service is external
to the repository and its behaviour is unconstrained). -/
structure GeminiService where
  generate_career_recommendations : Except String Json
  suggest_skill_improvements : Except String Json
  analyze_resume_gaps : Except String Json
  generate_learning_path : Except String Json

/-- An HTTP response: status code plus JSON body. -/
structure HttpResponse where
  status : Nat
  body : Json
deriving Repr

/-- What a handler produced: the response, the filesystem afterwards,
the paths it saved, and the paths it passed to `extract_resume_text`. -/
structure HandlerResult where
  response : HttpResponse
  fs : List String
  saved : List String
  extractCalls : List String
deriving Repr

/-- The multipart form of a POST to `/process`. -/
structure ProcessRequest where
  resume : Option FileUpload
  industries : Option String
  goals : Option String
  location : Option String

/-- The multipart form of a POST to `/extract-skills` or `/extract-resume`
(only the `resume` file is read). -/
structure UploadRequest where
  resume : Option FileUpload

/-- Python `str.lower` on a whole string, character by character;
`Char.toLower` lowercases exactly the basic latin letters, which is how
Python `str.lower` acts on the ASCII range (file extensions are ASCII). -/
def lowerStr (s : String) : String := ⟨s.data.map Char.toLower⟩

/-- Python `str.rfind` for a single character on a character list:
the last index of `c`, or `-1` when absent. -/
def rfind (l : List Char) (c : Char) : Int :=
  match l with
  | [] => -1
  | a :: as =>
    let r := rfind as c
    if r ≥ 0 then r + 1 else if a = c then 0 else -1

/-- Is every character of the list a dot?  (used by `splitext`: a basename
consisting only of leading dots has no extension). -/
def allDots (l : List Char) : Bool := l.all (fun c => c = '.')

/-- `os.path.splitext` on a character list (posix: separator is the slash,
extension separator is the dot).  Returns `(root, ext)`; the extension
starts at the last dot, unless every character between the last slash and
that dot is itself a dot (then there is no extension). -/
def splitextList (p : List Char) : List Char × List Char :=
  if rfind p '.' > rfind p '/' then
    if allDots ((p.take (rfind p '.').toNat).drop (rfind p '/' + 1).toNat) then (p, [])
    else (p.take (rfind p '.').toNat, p.drop (rfind p '.').toNat)
  else (p, [])

/-- `os.path.splitext` on strings. -/
def splitext (p : String) : String × String :=
  ((⟨(splitextList p.data).1⟩ : String), (⟨(splitextList p.data).2⟩ : String))

/-- `os.path.join` as used by the handlers (folder, relative filename). -/
def pathJoin (a b : String) : String := a ++ "/" ++ b

/-- The upload folder from configuration (`config.UPLOAD_FOLDER`).  The
configuration module is external; the exact value is irrelevant to every
claim, so a representative constant is used. -/
def UPLOAD_FOLDER : String := "uploads"

/-- `allowed_extensions` in `extract_resume` (app.py line 236). -/
def allowed_extensions : List String := [".pdf", ".docx", ".doc"]

/-- The extension acceptance test of `extract_resume` (app.py lines
237–239): lowercase the `splitext` extension and test membership. -/
def allowed_check (filename : String) : Bool :=
  allowed_extensions.contains (lowerStr (splitext filename).2)

/-- `file.save(file_path)`: the path now exists. -/
def save (path : String) (fs : List String) : List String :=
  if fs.contains path then fs else path :: fs

/-- The `finally` cleanup block shared by all three handlers:
`if os.path.exists(file_path): os.remove(file_path)` (the inner
`try/except` around `os.remove` only logs, so removal is modelled as
succeeding). -/
def removeIfExists (path : String) (fs : List String) : List String :=
  if fs.contains path then fs.filter (fun p => p != path) else fs

/-- Serialize an optional string (Python `None` → JSON null). -/
def optStr : Option String → Json
  | none => Json.null
  | some s => Json.jstr s

/-- Serialize a list of strings as a JSON array. -/
def strArr (l : List String) : Json := Json.jarr (l.map Json.jstr)

/-- Serialize the skills-by-category dict. -/
def skillsObj (l : List (String × List String)) : Json :=
  Json.jobj (l.map (fun p => (p.1, strArr p.2)))

/-- The `ai_recommendations` dict built by the AI block of `process_resume`
(app.py lines 93–133): empty when the service is unavailable; otherwise the
four calls run in order inside one `try`, each successful call adding its
key, and the first raised exception adding an `error` key instead of the
remaining keys. -/
def aiBlock (g : Option GeminiService) : List (String × Json) :=
  match g with
  | none => []
  | some svc =>
    match svc.generate_career_recommendations with
    | .error e => [("error", Json.jstr e)]
    | .ok career =>
      match svc.suggest_skill_improvements with
      | .error e => [("career_recommendations", career), ("error", Json.jstr e)]
      | .ok skill =>
        match svc.analyze_resume_gaps with
        | .error e => [("career_recommendations", career),
                       ("skill_improvements", skill), ("error", Json.jstr e)]
        | .ok gaps =>
          match svc.generate_learning_path with
          | .error e => [("career_recommendations", career),
                         ("skill_improvements", skill),
                         ("resume_analysis", gaps), ("error", Json.jstr e)]
          | .ok path => [("career_recommendations", career),
                         ("skill_improvements", skill),
                         ("resume_analysis", gaps), ("learning_path", path)]

/-- The `extracted_info` object of the `/process` success response
(app.py lines 138–149). -/
def extracted_info_json (clean_text : String) (basic_info : BasicInfo) : Json :=
  Json.jobj [
    ("text_length", Json.jnum clean_text.length),
    ("email", optStr basic_info.email),
    ("detected_skills", strArr basic_info.skills),
    ("skills_by_category", skillsObj basic_info.skills_summary),
    ("total_skills_found", Json.jnum basic_info.skills.length),
    ("has_experience_keywords", Json.jbool (decide (basic_info.experience_keywords.length > 0))),
    ("has_education_keywords", Json.jbool (decide (basic_info.education_keywords.length > 0))),
    ("experience_entries", strArr basic_info.experience_entries),
    ("project_entries", strArr basic_info.project_entries),
    ("experience_keywords", strArr basic_info.experience_keywords)
  ]

/-- The `/process` success response body (app.py lines 136–157). -/
def process_response (clean_text : String) (basic_info : BasicInfo)
    (industries goals location : Option String) (ai : List (String × Json)) : Json :=
  Json.jobj [
    ("summary", Json.jstr "Resume processed successfully with AI analysis"),
    ("extracted_info", extracted_info_json clean_text basic_info),
    ("preferences", Json.jobj [
      ("industries", optStr industries),
      ("goals", optStr goals),
      ("location", optStr location)
    ]),
    ("ai_insights", Json.jobj ai)
  ]

/-- The `try` block of `process_resume` (app.py lines 66–157): extraction,
the empty-raw-text check, cleaning, info extraction, the AI block, and the
response construction; a raised collaborator exception escapes as
`.error`. -/
def process_try (c : Collaborators) (g : Option GeminiService)
    (industries goals location : Option String) (file_path : String) :
    Except String HttpResponse :=
  match c.extract_resume_text file_path with
  | .error e => .error e
  | .ok extracted_text =>
    if extracted_text.isEmpty then
      .ok ⟨400, Json.jobj [("error", Json.jstr "Could not extract text from resume")]⟩
    else
      match c.clean_extracted_text extracted_text with
      | .error e => .error e
      | .ok clean_text =>
        match c.extract_basic_info clean_text extracted_text with
        | .error e => .error e
        | .ok basic_info =>
          .ok ⟨200, process_response clean_text basic_info industries goals location (aiBlock g)⟩

/-- The `/process` handler `process_resume` (app.py lines 52–171). -/
def process_resume (c : Collaborators) (g : Option GeminiService)
    (req : ProcessRequest) (fs : List String) : HandlerResult :=
  match req.resume with
  | none => ⟨⟨400, Json.jobj [("error", Json.jstr "No resume uploaded")]⟩, fs, [], []⟩
  | some file =>
    let file_path := pathJoin UPLOAD_FOLDER file.filename
    let fs1 := save file_path fs
    let result := process_try c g req.industries req.goals req.location file_path
    let fs2 := removeIfExists file_path fs1
    match result with
    | .ok resp => ⟨resp, fs2, [file_path], [file_path]⟩
    | .error e =>
      ⟨⟨500, Json.jobj [("error", Json.jstr ("Error processing resume: " ++ e))]⟩,
       fs2, [file_path], [file_path]⟩

/-- The `/extract-skills` success response body (app.py lines 201–209);
note the email default here is the empty string, not null. -/
def skills_response (basic_info : BasicInfo) : Json :=
  Json.jobj [
    ("skills", strArr basic_info.skills),
    ("skills_by_category", skillsObj basic_info.skills_summary),
    ("total_skills_found", Json.jnum basic_info.skills.length),
    ("extracted_info", Json.jobj [
      ("email", Json.jstr (basic_info.email.getD "")),
      ("detected_skills", strArr basic_info.skills)
    ])
  ]

/-- The `try` block of `extract_skills` (app.py lines 192–209): no
empty-text check at all; cleaning runs directly on whatever extraction
returned. -/
def skills_try (c : Collaborators) (file_path : String) : Except String HttpResponse :=
  match c.extract_resume_text file_path with
  | .error e => .error e
  | .ok extracted_text =>
    match c.clean_extracted_text extracted_text with
    | .error e => .error e
    | .ok clean_text =>
      match c.extract_basic_info clean_text extracted_text with
      | .error e => .error e
      | .ok basic_info => .ok ⟨200, skills_response basic_info⟩

/-- The `/extract-skills` handler `extract_skills` (app.py lines 173–223).
`now_ms` is `int(time.time() * 1000)`; the upload is saved under the fresh
name `resume-{now_ms}.pdf` whatever its original filename. -/
def extract_skills (c : Collaborators) (req : UploadRequest) (now_ms : Nat)
    (fs : List String) : HandlerResult :=
  match req.resume with
  | none => ⟨⟨400, Json.jobj [("error", Json.jstr "No resume file provided")]⟩, fs, [], []⟩
  | some _file =>
    let filename := "resume-" ++ toString now_ms ++ ".pdf"
    let file_path := pathJoin UPLOAD_FOLDER filename
    let fs1 := save file_path fs
    let result := skills_try c file_path
    let fs2 := removeIfExists file_path fs1
    match result with
    | .ok resp => ⟨resp, fs2, [file_path], [file_path]⟩
    | .error e =>
      ⟨⟨500, Json.jobj [("error", Json.jstr ("Error extracting skills: " ++ e))]⟩,
       fs2, [file_path], [file_path]⟩

/-- The `/extract-resume` success response body (app.py lines 259–283). -/
def resume_response (filename file_extension clean_text : String)
    (basic_info : BasicInfo) : Json :=
  Json.jobj [
    ("success", Json.jbool true),
    ("file_info", Json.jobj [
      ("filename", Json.jstr filename),
      ("file_type", Json.jstr file_extension),
      ("text_length", Json.jnum clean_text.length)
    ]),
    ("extracted_content", Json.jobj [
      ("full_text", Json.jstr clean_text),
      ("basic_info", Json.jobj [
        ("email", optStr basic_info.email),
        ("skills", strArr basic_info.skills),
        ("skills_by_category", skillsObj basic_info.skills_summary),
        ("experience_keywords", strArr basic_info.experience_keywords),
        ("education_keywords", strArr basic_info.education_keywords)
      ])
    ]),
    ("analysis", Json.jobj [
      ("has_contact_info", Json.jbool basic_info.email.isSome),
      ("skills_detected", Json.jnum basic_info.skills.length),
      ("appears_complete", Json.jbool (decide (clean_text.length > 200))),
      ("top_skill_categories", strArr ((basic_info.skills_summary.map Prod.fst).take 3)),
      ("has_technical_background", Json.jbool (decide (basic_info.skills.length > 5)))
    ])
  ]

/-- The `try` block of `extract_resume` (app.py lines 246–285). -/
def resume_try (c : Collaborators) (filename file_extension file_path : String) :
    Except String HttpResponse :=
  match c.extract_resume_text file_path with
  | .error e => .error e
  | .ok extracted_text =>
    if extracted_text.isEmpty then
      .ok ⟨400, Json.jobj [("error", Json.jstr
        "Could not extract text from resume. The file might be corrupted or contain only images.")]⟩
    else
      match c.clean_extracted_text extracted_text with
      | .error e => .error e
      | .ok clean_text =>
        match c.extract_basic_info clean_text extracted_text with
        | .error e => .error e
        | .ok basic_info => .ok ⟨200, resume_response filename file_extension clean_text basic_info⟩

/-- The body of the unsupported-format rejection of `extract_resume`
(app.py line 240). -/
def unsupportedResponse : HttpResponse :=
  ⟨400, Json.jobj [("error", Json.jstr
    ("Unsupported file format. Allowed: " ++ String.intercalate ", " allowed_extensions))]⟩

/-- The `/extract-resume` handler `extract_resume` (app.py lines 225–297):
the only handler that checks the filename extension, and it does so before
saving the file or attempting any extraction. -/
def extract_resume (c : Collaborators) (req : UploadRequest) (fs : List String) :
    HandlerResult :=
  match req.resume with
  | none => ⟨⟨400, Json.jobj [("error", Json.jstr "No resume uploaded")]⟩, fs, [], []⟩
  | some file =>
    let file_extension := lowerStr (splitext file.filename).2
    if allowed_extensions.contains file_extension then
      let file_path := pathJoin UPLOAD_FOLDER file.filename
      let fs1 := save file_path fs
      let result := resume_try c file.filename file_extension file_path
      let fs2 := removeIfExists file_path fs1
      match result with
      | .ok resp => ⟨resp, fs2, [file_path], [file_path]⟩
      | .error e =>
        ⟨⟨500, Json.jobj [("error", Json.jstr ("Error extracting resume: " ++ e))]⟩,
         fs2, [file_path], [file_path]⟩
    else ⟨unsupportedResponse, fs, [], []⟩

/-! ### Concrete collaborator instances, used by closed theorems below -/

def emptyInfo : BasicInfo := ⟨none, [], [], [], [], [], []⟩

def helloCollab : Collaborators :=
  ⟨fun _ => .ok "hello world", fun s => .ok s, fun _ _ => .ok emptyInfo⟩

def isCtrl (c : Char) : Bool := c.toNat < 32 || c.toNat == 127

def wordsAux : List Char → List Char → List (List Char)
  | [], acc => if acc.isEmpty then [] else [acc.reverse]
  | c :: cs, acc =>
    if c.isWhitespace then
      if acc.isEmpty then wordsAux cs [] else acc.reverse :: wordsAux cs []
    else wordsAux cs (c :: acc)

/-- Modelled from the spec: `clean_extracted_text` lives in
`utils/resume_extractor.py`, which is not part of the repository sources;
the spec (§4.3) defines it as stripping non-printable/control characters,
collapsing whitespace runs (including newlines) to single spaces, and
trimming.  Realised by dropping non-whitespace control characters and
rejoining the whitespace-separated words with single spaces. -/
def clean_spec (s : String) : String :=
  String.intercalate " "
    ((wordsAux (s.data.filter (fun c => !(isCtrl c && !c.isWhitespace))) []).map
      (fun w => (⟨w⟩ : String)))

def raisingCollab : Collaborators :=
  ⟨fun _ => .error "boom", fun s => .ok s, fun _ _ => .ok emptyInfo⟩

def wsCollab : Collaborators :=
  ⟨fun _ => .ok " ", fun s => .ok (clean_spec s), fun _ _ => .ok emptyInfo⟩

def isErr {α : Type} : Except String α → Bool
  | .error _ => true
  | .ok _ => false

/-- Did any of the four AI calls of the request raise? -/
def aiFailed (svc : GeminiService) : Bool :=
  isErr svc.generate_career_recommendations || isErr svc.suggest_skill_improvements ||
    isErr svc.analyze_resume_gaps || isErr svc.generate_learning_path

def svcBoom : GeminiService :=
  ⟨.error "ai down", .ok Json.null, .ok Json.null, .ok Json.null⟩

def sampleInfo : BasicInfo :=
  ⟨none, ["python"], [("programming", ["python"])], ["experience"], [], [], []⟩

def sampleCollab : Collaborators :=
  ⟨fun _ => .ok "python experience", fun s => .ok s, fun _ _ => .ok sampleInfo⟩

/-! ### Case-insensitivity of the extension dispatch

`extract_resume` lowercases the `splitext` extension before testing
membership in `allowed_extensions`.  The lemmas below show that
lowercasing the filename first changes nothing: `Char.toLower` fixes
every character that is not a basic latin capital, `rfind`, `allDots`
and `splitextList` commute with character-wise lowercasing, and
lowercasing is idempotent. -/

theorem toNat_ofNat_valid (n : Nat) (h : n.isValidChar) : (Char.ofNat n).toNat = n := by
  rw [Char.ofNat, dif_pos h]
  simp [Char.ofNatAux, Char.toNat, UInt32.toNat]

theorem toLower_eq_iff_lt (c d : Char) (hd : d.toNat < 65) :
    (Char.toLower c = d) ↔ (c = d) := by
  change (if c.toNat ≥ 65 ∧ c.toNat ≤ 90 then Char.ofNat (c.toNat + 32) else c) = d ↔ c = d
  split_ifs with h
  · constructor
    · intro he
      have h1 : (Char.ofNat (c.toNat + 32)).toNat = c.toNat + 32 :=
        toNat_ofNat_valid _ (Or.inl (by omega))
      rw [he] at h1
      omega
    · intro he
      subst he
      omega
  · exact Iff.rfl

theorem toLower_idem (c : Char) : Char.toLower (Char.toLower c) = Char.toLower c := by
  by_cases h : c.toNat ≥ 65 ∧ c.toNat ≤ 90
  · have h1 : Char.toLower c = Char.ofNat (c.toNat + 32) := by
      change (if c.toNat ≥ 65 ∧ c.toNat ≤ 90 then Char.ofNat (c.toNat + 32) else c) = _
      exact if_pos h
    have h2 : (Char.ofNat (c.toNat + 32)).toNat = c.toNat + 32 :=
      toNat_ofNat_valid _ (Or.inl (by omega))
    rw [h1]
    change (if (Char.ofNat (c.toNat + 32)).toNat ≥ 65 ∧ (Char.ofNat (c.toNat + 32)).toNat ≤ 90
      then Char.ofNat ((Char.ofNat (c.toNat + 32)).toNat + 32) else Char.ofNat (c.toNat + 32)) = _
    rw [if_neg (by omega)]
  · have h1 : Char.toLower c = c := by
      change (if c.toNat ≥ 65 ∧ c.toNat ≤ 90 then Char.ofNat (c.toNat + 32) else c) = _
      exact if_neg h
    rw [h1, h1]

theorem rfind_map_toLower (d : Char) (hd : d.toNat < 65) (l : List Char) :
    rfind (l.map Char.toLower) d = rfind l d := by
  induction l with
  | nil => rfl
  | cons a as ih =>
    simp only [List.map_cons, rfind, ih, toLower_eq_iff_lt a d hd]

theorem allDots_map_toLower (l : List Char) :
    allDots (l.map Char.toLower) = allDots l := by
  unfold allDots
  induction l with
  | nil => rfl
  | cons a as ih =>
    simp only [List.map_cons, List.all_cons, ih, toLower_eq_iff_lt a '.' (by decide)]

theorem splitextList_map_toLower (p : List Char) :
    splitextList (p.map Char.toLower) =
      ((splitextList p).1.map Char.toLower, (splitextList p).2.map Char.toLower) := by
  unfold splitextList
  rw [rfind_map_toLower '/' (by decide), rfind_map_toLower '.' (by decide)]
  split_ifs with h1 h2 h3 <;>
    simp_all [← List.map_take, ← List.map_drop, allDots_map_toLower]

theorem map_toLower_idem (l : List Char) :
    (l.map Char.toLower).map Char.toLower = l.map Char.toLower := by
  rw [List.map_map]
  exact List.map_congr_left (fun c _ => toLower_idem c)

theorem allowed_check_lowerStr (f : String) :
    allowed_check (lowerStr f) = allowed_check f := by
  unfold allowed_check splitext lowerStr
  show allowed_extensions.contains ⟨((splitextList ((f.data.map Char.toLower))).2).map Char.toLower⟩ = _
  rw [splitextList_map_toLower, map_toLower_idem]


/-! ### Handler-level helper lemmas and the claim theorems -/

/-- C1 (amended): only the `/extract-resume` endpoint rejects an
unsupported filename extension before extraction; `/process` and
`/extract-skills` perform no extension check and pass the saved path to
`extract_resume_text` for every uploaded file, whatever its extension.
When the extension check of `/extract-resume` fails, the handler returns
the unsupported-format rejection and never calls the extractor. -/
theorem extension_gate_only_in_extract_resume
    (c : Collaborators) (g : Option GeminiService) (file file2 : FileUpload)
    (ind gl loc : Option String) (t : Nat) (fs1 fs2 fs3 : List String)
    (hbad : allowed_check file2.filename = false) :
    (process_resume c g ⟨some file, ind, gl, loc⟩ fs1).extractCalls
        = [pathJoin UPLOAD_FOLDER file.filename] ∧
    (extract_skills c ⟨some file⟩ t fs2).extractCalls
        = [pathJoin UPLOAD_FOLDER ("resume-" ++ toString t ++ ".pdf")] ∧
    (extract_resume c ⟨some file2⟩ fs3).extractCalls = [] ∧
    (extract_resume c ⟨some file2⟩ fs3).response = unsupportedResponse := by
  have hmem : lowerStr (splitext file2.filename).2 ∉ allowed_extensions := by
    simpa [allowed_check] using hbad
  refine ⟨?_, ?_, ?_, ?_⟩
  · simp only [process_resume]
    cases process_try c g ind gl loc (pathJoin UPLOAD_FOLDER file.filename) <;> rfl
  · simp only [extract_skills]
    cases skills_try c (pathJoin UPLOAD_FOLDER ("resume-" ++ toString t ++ ".pdf")) <;> rfl
  · simp [extract_resume, hmem]
  · simp [extract_resume, hmem]

/-- Witness for C1 at a concrete `.txt` upload. -/
theorem extension_gate_only_in_extract_resume_witness :
    (process_resume helloCollab none ⟨some ⟨"resume.txt", [1]⟩, none, none, none⟩ []).extractCalls
        = [pathJoin UPLOAD_FOLDER "resume.txt"] ∧
    (extract_skills helloCollab ⟨some ⟨"resume.txt", [1]⟩⟩ 7 []).extractCalls
        = [pathJoin UPLOAD_FOLDER ("resume-" ++ toString 7 ++ ".pdf")] ∧
    (extract_resume helloCollab ⟨some ⟨"resume.txt", [1]⟩⟩ []).extractCalls = [] ∧
    (extract_resume helloCollab ⟨some ⟨"resume.txt", [1]⟩⟩ []).response = unsupportedResponse :=
  extension_gate_only_in_extract_resume helloCollab none ⟨"resume.txt", [1]⟩ ⟨"resume.txt", [1]⟩
    none none none 7 [] [] [] (by decide)

/-- C1 counterexample to the claim as stated: a `.txt` upload to
`/process` is not rejected as an unsupported format — extraction is
attempted on it and the request succeeds with status 200. -/
theorem process_txt_reaches_extraction :
    (process_resume helloCollab none ⟨some ⟨"resume.txt", [1]⟩, none, none, none⟩ []).extractCalls
        = ["uploads/resume.txt"] ∧
    (process_resume helloCollab none ⟨some ⟨"resume.txt", [1]⟩, none, none, none⟩ []).response.status
        = 200 := by
  constructor <;> rfl

/-- The cleanup block always removes the saved path. -/
theorem not_mem_removeIfExists (path : String) (fs : List String) :
    path ∉ removeIfExists path fs := by
  unfold removeIfExists
  split_ifs with h
  · intro hmem
    have h2 := (List.mem_filter.mp hmem).2
    simp at h2
  · intro hmem
    exact h (List.elem_eq_true_of_mem hmem)

/-- C9: each of the three upload endpoints removes the file it saved
before returning — the saved path is absent from the filesystem of every
handler result, whichever way the `try` block ended. -/
theorem uploaded_file_removed
    (c : Collaborators) (g : Option GeminiService) (file file2 : FileUpload)
    (ind gl loc : Option String) (t : Nat) (fs1 fs2 fs3 : List String)
    (hok : allowed_check file2.filename = true) :
    pathJoin UPLOAD_FOLDER file.filename ∉ (process_resume c g ⟨some file, ind, gl, loc⟩ fs1).fs ∧
    pathJoin UPLOAD_FOLDER ("resume-" ++ toString t ++ ".pdf")
        ∉ (extract_skills c ⟨some file⟩ t fs2).fs ∧
    (extract_resume c ⟨some file2⟩ fs3).saved = [pathJoin UPLOAD_FOLDER file2.filename] ∧
    pathJoin UPLOAD_FOLDER file2.filename ∉ (extract_resume c ⟨some file2⟩ fs3).fs := by
  have hmem : lowerStr (splitext file2.filename).2 ∈ allowed_extensions :=
    List.mem_of_elem_eq_true (by simpa [allowed_check] using hok)
  refine ⟨?_, ?_, ?_, ?_⟩
  · simp only [process_resume]
    cases process_try c g ind gl loc (pathJoin UPLOAD_FOLDER file.filename) <;>
      exact not_mem_removeIfExists _ _
  · simp only [extract_skills]
    cases skills_try c (pathJoin UPLOAD_FOLDER ("resume-" ++ toString t ++ ".pdf")) <;>
      exact not_mem_removeIfExists _ _
  · cases h : resume_try c file2.filename (lowerStr (splitext file2.filename).2)
        (pathJoin UPLOAD_FOLDER file2.filename) <;>
      simp [extract_resume, hmem, h]
  · cases h : resume_try c file2.filename (lowerStr (splitext file2.filename).2)
        (pathJoin UPLOAD_FOLDER file2.filename) <;>
    · simp [extract_resume, hmem, h]
      exact not_mem_removeIfExists _ _

/-- Witness for C9 at concrete requests. -/
theorem uploaded_file_removed_witness :
    pathJoin UPLOAD_FOLDER "r.pdf" ∉
      (process_resume helloCollab none ⟨some ⟨"r.pdf", [1]⟩, none, none, none⟩ ["other"]).fs ∧
    pathJoin UPLOAD_FOLDER ("resume-" ++ toString 7 ++ ".pdf")
        ∉ (extract_skills helloCollab ⟨some ⟨"r.pdf", [1]⟩⟩ 7 ["other"]).fs ∧
    (extract_resume helloCollab ⟨some ⟨"r.pdf", [1]⟩⟩ ["other"]).saved
        = [pathJoin UPLOAD_FOLDER "r.pdf"] ∧
    pathJoin UPLOAD_FOLDER "r.pdf" ∉ (extract_resume helloCollab ⟨some ⟨"r.pdf", [1]⟩⟩ ["other"]).fs :=
  uploaded_file_removed helloCollab none ⟨"r.pdf", [1]⟩ ⟨"r.pdf", [1]⟩ none none none 7
    ["other"] ["other"] ["other"] (by decide)

/-- C10: `/extract-skills` saves every upload under the freshly
generated name resume-<now_ms>.pdf inside the upload folder — a path
ending in `.pdf` — passes exactly that path to the extractor, and the
saved name does not depend on the uploaded file at all. -/
theorem skills_upload_saved_fresh_pdf
    (c : Collaborators) (file : FileUpload) (t : Nat) (fs : List String) :
    (extract_skills c ⟨some file⟩ t fs).saved
        = [pathJoin UPLOAD_FOLDER ("resume-" ++ toString t ++ ".pdf")] ∧
    (extract_skills c ⟨some file⟩ t fs).extractCalls
        = [pathJoin UPLOAD_FOLDER ("resume-" ++ toString t ++ ".pdf")] ∧
    (∃ p : String, pathJoin UPLOAD_FOLDER ("resume-" ++ toString t ++ ".pdf") = p ++ ".pdf") ∧
    ∀ file2 : FileUpload, extract_skills c ⟨some file2⟩ t fs = extract_skills c ⟨some file⟩ t fs := by
  refine ⟨?_, ?_, ⟨UPLOAD_FOLDER ++ "/" ++ ("resume-" ++ toString t), ?_⟩, fun file2 => rfl⟩
  · simp only [extract_skills]
    cases skills_try c (pathJoin UPLOAD_FOLDER ("resume-" ++ toString t ++ ".pdf")) <;> rfl
  · simp only [extract_skills]
    cases skills_try c (pathJoin UPLOAD_FOLDER ("resume-" ++ toString t ++ ".pdf")) <;> rfl
  · simp [pathJoin, String.append_assoc]

/-- C4: a collaborator exception raised inside the `try` block of any
of the three upload handlers is caught and translated into an HTTP 500
JSON error response carrying the exception message; the handlers are
total functions of their oracles, so no exception escapes uncaught. -/
theorem collaborator_exceptions_become_500
    (c : Collaborators) (g : Option GeminiService) (file file2 : FileUpload)
    (ind gl loc : Option String) (t : Nat) (fs1 fs2 fs3 : List String)
    (e1 e2 e3 : String)
    (h1 : process_try c g ind gl loc (pathJoin UPLOAD_FOLDER file.filename) = .error e1)
    (h2 : skills_try c (pathJoin UPLOAD_FOLDER ("resume-" ++ toString t ++ ".pdf")) = .error e2)
    (hok : allowed_check file2.filename = true)
    (h3 : resume_try c file2.filename (lowerStr (splitext file2.filename).2)
        (pathJoin UPLOAD_FOLDER file2.filename) = .error e3) :
    (process_resume c g ⟨some file, ind, gl, loc⟩ fs1).response
        = ⟨500, Json.jobj [("error", Json.jstr ("Error processing resume: " ++ e1))]⟩ ∧
    (extract_skills c ⟨some file⟩ t fs2).response
        = ⟨500, Json.jobj [("error", Json.jstr ("Error extracting skills: " ++ e2))]⟩ ∧
    (extract_resume c ⟨some file2⟩ fs3).response
        = ⟨500, Json.jobj [("error", Json.jstr ("Error extracting resume: " ++ e3))]⟩ := by
  have hmem : lowerStr (splitext file2.filename).2 ∈ allowed_extensions :=
    List.mem_of_elem_eq_true (by simpa [allowed_check] using hok)
  refine ⟨?_, ?_, ?_⟩
  · simp [process_resume, h1]
  · simp [extract_skills, h2]
  · simp [extract_resume, hmem, h3]

/-- Witness for C4 with an extractor that raises. -/
theorem collaborator_exceptions_become_500_witness :
    (process_resume raisingCollab none ⟨some ⟨"r.pdf", [1]⟩, none, none, none⟩ []).response
        = ⟨500, Json.jobj [("error", Json.jstr ("Error processing resume: " ++ "boom"))]⟩ ∧
    (extract_skills raisingCollab ⟨some ⟨"r.pdf", [1]⟩⟩ 7 []).response
        = ⟨500, Json.jobj [("error", Json.jstr ("Error extracting skills: " ++ "boom"))]⟩ ∧
    (extract_resume raisingCollab ⟨some ⟨"r.pdf", [1]⟩⟩ []).response
        = ⟨500, Json.jobj [("error", Json.jstr ("Error extracting resume: " ++ "boom"))]⟩ :=
  collaborator_exceptions_become_500 raisingCollab none ⟨"r.pdf", [1]⟩ ⟨"r.pdf", [1]⟩
    none none none 7 [] [] [] "boom" "boom" "boom" rfl rfl (by decide) rfl

/-- C2 (amended): `/process` and `/extract-resume` return the
"could not extract text" rejection exactly when the raw extracted text
is empty, before cleaning; raw text that is non-empty but cleans to the
empty string still yields a 200 success response. -/
theorem rejection_iff_raw_text_empty
    (c : Collaborators) (g : Option GeminiService) (file file2 : FileUpload)
    (ind gl loc : Option String) (fs1 fs3 : List String) (raw cl : String) (bi : BasicInfo)
    (hx1 : c.extract_resume_text (pathJoin UPLOAD_FOLDER file.filename) = .ok raw)
    (hcl : raw.isEmpty = false → c.clean_extracted_text raw = .ok cl)
    (hbi : raw.isEmpty = false → c.extract_basic_info cl raw = .ok bi)
    (hok : allowed_check file2.filename = true)
    (hx2 : c.extract_resume_text (pathJoin UPLOAD_FOLDER file2.filename) = .ok raw) :
    ((process_resume c g ⟨some file, ind, gl, loc⟩ fs1).response
        = if raw.isEmpty then
            ⟨400, Json.jobj [("error", Json.jstr "Could not extract text from resume")]⟩
          else ⟨200, process_response cl bi ind gl loc (aiBlock g)⟩) ∧
    ((extract_resume c ⟨some file2⟩ fs3).response
        = if raw.isEmpty then
            ⟨400, Json.jobj [("error", Json.jstr
              "Could not extract text from resume. The file might be corrupted or contain only images.")]⟩
          else ⟨200, resume_response file2.filename (lowerStr (splitext file2.filename).2) cl bi⟩) := by
  have hmem : lowerStr (splitext file2.filename).2 ∈ allowed_extensions :=
    List.mem_of_elem_eq_true (by simpa [allowed_check] using hok)
  by_cases hre : raw.isEmpty
  · constructor
    · simp [process_resume, process_try, hx1, hre]
    · simp [extract_resume, resume_try, hmem, hx2, hre]
  · have hre' : raw.isEmpty = false := by simpa using hre
    constructor
    · simp [process_resume, process_try, hx1, hre', hcl hre', hbi hre']
    · simp [extract_resume, resume_try, hmem, hx2, hre', hcl hre', hbi hre']

/-- Witness for C2: a whitespace-only raw text takes the success
branch of both endpoints. -/
theorem rejection_iff_raw_text_empty_witness :
    ((process_resume wsCollab none ⟨some ⟨"r.pdf", [1]⟩, none, none, none⟩ []).response
        = if (" ").isEmpty then
            ⟨400, Json.jobj [("error", Json.jstr "Could not extract text from resume")]⟩
          else ⟨200, process_response "" emptyInfo none none none (aiBlock none)⟩) ∧
    ((extract_resume wsCollab ⟨some ⟨"r.pdf", [1]⟩⟩ []).response
        = if (" ").isEmpty then
            ⟨400, Json.jobj [("error", Json.jstr
              "Could not extract text from resume. The file might be corrupted or contain only images.")]⟩
          else ⟨200, resume_response "r.pdf" (lowerStr (splitext "r.pdf").2) "" emptyInfo⟩) :=
  rejection_iff_raw_text_empty wsCollab none ⟨"r.pdf", [1]⟩ ⟨"r.pdf", [1]⟩
    none none none [] [] " " "" emptyInfo rfl (fun _ => rfl) (fun _ => rfl) (by decide) rfl

/-- C2 counterexample to the claim as stated: extraction succeeds with
the whitespace-only raw text, the spec-modelled cleaner yields the empty
string, yet `/process` returns a 200 success response without any error
key instead of the claimed "could not extract text" rejection. -/
theorem whitespace_raw_text_yields_success :
    (process_resume wsCollab none ⟨some ⟨"r.pdf", [1]⟩, none, none, none⟩ []).response.status = 200 ∧
    clean_spec " " = "" ∧
    Json.getKey (process_resume wsCollab none ⟨some ⟨"r.pdf", [1]⟩, none, none, none⟩ []).response.body
      "error" = none := by
  refine ⟨rfl, rfl, rfl⟩

/-- C3: when extraction, cleaning and info extraction succeed,
`/process` returns a 200 response carrying the structured profile in
`extracted_info`, for every state of the Gemini collaborator — absent
(`none`) or present; and whenever one of the AI calls raises, the AI
error is recorded under the `error` key of `ai_insights` while the
profile is still returned. -/
theorem profile_survives_ai_failure
    (c : Collaborators) (g : Option GeminiService) (file : FileUpload)
    (ind gl loc : Option String) (fs : List String) (raw cl : String) (bi : BasicInfo)
    (hx : c.extract_resume_text (pathJoin UPLOAD_FOLDER file.filename) = .ok raw)
    (hne : raw.isEmpty = false)
    (hcl : c.clean_extracted_text raw = .ok cl)
    (hbi : c.extract_basic_info cl raw = .ok bi) :
    (process_resume c g ⟨some file, ind, gl, loc⟩ fs).response.status = 200 ∧
    Json.getKey (process_resume c g ⟨some file, ind, gl, loc⟩ fs).response.body "extracted_info"
        = some (extracted_info_json cl bi) ∧
    Json.getKey (process_resume c g ⟨some file, ind, gl, loc⟩ fs).response.body "ai_insights"
        = some (Json.jobj (aiBlock g)) ∧
    (∀ svc, g = some svc → aiFailed svc = true → ∃ e, ("error", Json.jstr e) ∈ aiBlock g) := by
  have hresp : (process_resume c g ⟨some file, ind, gl, loc⟩ fs).response
      = ⟨200, process_response cl bi ind gl loc (aiBlock g)⟩ := by
    simp [process_resume, process_try, hx, hne, hcl, hbi]
  refine ⟨by rw [hresp], ?_, ?_, ?_⟩
  · rw [hresp]
    simp [process_response, Json.getKey, List.lookup]
  · rw [hresp]
    simp [process_response, Json.getKey, List.lookup]
  · intro svc hg hfail
    subst hg
    unfold aiBlock
    cases h1 : svc.generate_career_recommendations with
    | error e => exact ⟨e, by simp [h1]⟩
    | ok career =>
      cases h2 : svc.suggest_skill_improvements with
      | error e => exact ⟨e, by simp [h1, h2]⟩
      | ok sk =>
        cases h3 : svc.analyze_resume_gaps with
        | error e => exact ⟨e, by simp [h1, h2, h3]⟩
        | ok ga =>
          cases h4 : svc.generate_learning_path with
          | error e => exact ⟨e, by simp [h1, h2, h3, h4]⟩
          | ok lp => simp [aiFailed, isErr, h1, h2, h3, h4] at hfail

/-- Witness for C3 with a Gemini service whose first call raises. -/
theorem profile_survives_ai_failure_witness :
    (process_resume helloCollab (some svcBoom)
        ⟨some ⟨"r.pdf", [1]⟩, none, none, none⟩ []).response.status = 200 ∧
    Json.getKey (process_resume helloCollab (some svcBoom)
        ⟨some ⟨"r.pdf", [1]⟩, none, none, none⟩ []).response.body "extracted_info"
        = some (extracted_info_json "hello world" emptyInfo) ∧
    Json.getKey (process_resume helloCollab (some svcBoom)
        ⟨some ⟨"r.pdf", [1]⟩, none, none, none⟩ []).response.body "ai_insights"
        = some (Json.jobj (aiBlock (some svcBoom))) ∧
    (∃ e, ("error", Json.jstr e) ∈ aiBlock (some svcBoom)) := by
  have h := profile_survives_ai_failure helloCollab (some svcBoom) ⟨"r.pdf", [1]⟩
    none none none [] "hello world" "hello world" emptyInfo rfl rfl rfl rfl
  exact ⟨h.1, h.2.1, h.2.2.1, h.2.2.2 svcBoom rfl rfl⟩

/-- C5 (amended): the `extracted_info` object of a successful
`/process` response contains exactly `text_length` followed by the nine
specified profile fields, in this order. -/
theorem extracted_info_field_list
    (c : Collaborators) (g : Option GeminiService) (file : FileUpload)
    (ind gl loc : Option String) (fs : List String) (raw cl : String) (bi : BasicInfo)
    (hx : c.extract_resume_text (pathJoin UPLOAD_FOLDER file.filename) = .ok raw)
    (hne : raw.isEmpty = false)
    (hcl : c.clean_extracted_text raw = .ok cl)
    (hbi : c.extract_basic_info cl raw = .ok bi) :
    (Json.getKey (process_resume c g ⟨some file, ind, gl, loc⟩ fs).response.body
        "extracted_info").map Json.objKeys
      = some ["text_length", "email", "detected_skills", "skills_by_category",
              "total_skills_found", "has_experience_keywords", "has_education_keywords",
              "experience_entries", "project_entries", "experience_keywords"] := by
  have hresp : (process_resume c g ⟨some file, ind, gl, loc⟩ fs).response
      = ⟨200, process_response cl bi ind gl loc (aiBlock g)⟩ := by
    simp [process_resume, process_try, hx, hne, hcl, hbi]
  rw [hresp]
  simp [process_response, Json.getKey, List.lookup, extracted_info_json, Json.objKeys]

/-- Witness for C5 at a concrete successful request. -/
theorem extracted_info_field_list_witness :
    (Json.getKey (process_resume helloCollab none
        ⟨some ⟨"r.pdf", [1]⟩, none, none, none⟩ []).response.body
        "extracted_info").map Json.objKeys
      = some ["text_length", "email", "detected_skills", "skills_by_category",
              "total_skills_found", "has_experience_keywords", "has_education_keywords",
              "experience_entries", "project_entries", "experience_keywords"] :=
  extracted_info_field_list helloCollab none ⟨"r.pdf", [1]⟩ none none none []
    "hello world" "hello world" emptyInfo rfl rfl rfl rfl

/-- C5 counterexample to the claim as stated: the `extracted_info`
object of a successful response is not exactly the nine specified
fields — it additionally contains `text_length`. -/
theorem extracted_info_not_exactly_spec_fields :
    (Json.getKey (process_resume helloCollab none
        ⟨some ⟨"r.pdf", [1]⟩, none, none, none⟩ []).response.body
        "extracted_info").map Json.objKeys
      ≠ some ["email", "detected_skills", "skills_by_category", "total_skills_found",
              "has_experience_keywords", "has_education_keywords",
              "experience_entries", "project_entries", "experience_keywords"] ∧
    "text_length" ∈ Json.objKeys ((Json.getKey (process_resume helloCollab none
        ⟨some ⟨"r.pdf", [1]⟩, none, none, none⟩ []).response.body
        "extracted_info").getD Json.null) := by
  refine ⟨by decide, by decide⟩

/-- C6: in a successful `/process` response the boolean signals
`has_experience_keywords` and `has_education_keywords` are true exactly
when the corresponding keyword list of the extracted profile is
non-empty; only presence matters, not how often a keyword occurred. -/
theorem keyword_flags_reflect_presence
    (c : Collaborators) (g : Option GeminiService) (file : FileUpload)
    (ind gl loc : Option String) (fs : List String) (raw cl : String) (bi : BasicInfo)
    (hx : c.extract_resume_text (pathJoin UPLOAD_FOLDER file.filename) = .ok raw)
    (hne : raw.isEmpty = false)
    (hcl : c.clean_extracted_text raw = .ok cl)
    (hbi : c.extract_basic_info cl raw = .ok bi) :
    (Json.getKey ((Json.getKey (process_resume c g ⟨some file, ind, gl, loc⟩ fs).response.body
          "extracted_info").getD Json.null) "has_experience_keywords"
        = some (Json.jbool true) ↔ bi.experience_keywords ≠ []) ∧
    (Json.getKey ((Json.getKey (process_resume c g ⟨some file, ind, gl, loc⟩ fs).response.body
          "extracted_info").getD Json.null) "has_education_keywords"
        = some (Json.jbool true) ↔ bi.education_keywords ≠ []) := by
  have hresp : (process_resume c g ⟨some file, ind, gl, loc⟩ fs).response
      = ⟨200, process_response cl bi ind gl loc (aiBlock g)⟩ := by
    simp [process_resume, process_try, hx, hne, hcl, hbi]
  rw [hresp]
  simp [process_response, extracted_info_json, Json.getKey, List.lookup,
    List.length_pos]

/-- Witness for C6 with a profile holding one experience keyword and
no education keywords. -/
theorem keyword_flags_reflect_presence_witness :
    (Json.getKey ((Json.getKey (process_resume sampleCollab none
          ⟨some ⟨"r.pdf", [1]⟩, none, none, none⟩ []).response.body
          "extracted_info").getD Json.null) "has_experience_keywords"
        = some (Json.jbool true) ↔ sampleInfo.experience_keywords ≠ []) ∧
    (Json.getKey ((Json.getKey (process_resume sampleCollab none
          ⟨some ⟨"r.pdf", [1]⟩, none, none, none⟩ []).response.body
          "extracted_info").getD Json.null) "has_education_keywords"
        = some (Json.jbool true) ↔ sampleInfo.education_keywords ≠ []) :=
  keyword_flags_reflect_presence sampleCollab none ⟨"r.pdf", [1]⟩ none none none []
    "python experience" "python experience" sampleInfo rfl rfl rfl rfl

/-- C7: a partial extraction success — here a profile with no email —
is returned by `/process` as a normal 200 response whose `email` field
is null, with no error key; it is not converted into an error
response. -/
theorem partial_profile_is_success
    (c : Collaborators) (g : Option GeminiService) (file : FileUpload)
    (ind gl loc : Option String) (fs : List String) (raw cl : String) (bi : BasicInfo)
    (hx : c.extract_resume_text (pathJoin UPLOAD_FOLDER file.filename) = .ok raw)
    (hne : raw.isEmpty = false)
    (hcl : c.clean_extracted_text raw = .ok cl)
    (hbi : c.extract_basic_info cl raw = .ok bi)
    (hmail : bi.email = none) :
    (process_resume c g ⟨some file, ind, gl, loc⟩ fs).response.status = 200 ∧
    Json.getKey ((Json.getKey (process_resume c g ⟨some file, ind, gl, loc⟩ fs).response.body
        "extracted_info").getD Json.null) "email" = some Json.null ∧
    Json.getKey (process_resume c g ⟨some file, ind, gl, loc⟩ fs).response.body "error" = none := by
  have hresp : (process_resume c g ⟨some file, ind, gl, loc⟩ fs).response
      = ⟨200, process_response cl bi ind gl loc (aiBlock g)⟩ := by
    simp [process_resume, process_try, hx, hne, hcl, hbi]
  rw [hresp]
  refine ⟨rfl, ?_, ?_⟩
  · simp [process_response, extracted_info_json, Json.getKey, List.lookup, hmail, optStr]
  · simp [process_response, Json.getKey, List.lookup]

/-- Witness for C7 with a profile that has skills but no email. -/
theorem partial_profile_is_success_witness :
    (process_resume sampleCollab none ⟨some ⟨"r.pdf", [1]⟩, none, none, none⟩ []).response.status
        = 200 ∧
    Json.getKey ((Json.getKey (process_resume sampleCollab none
        ⟨some ⟨"r.pdf", [1]⟩, none, none, none⟩ []).response.body
        "extracted_info").getD Json.null) "email" = some Json.null ∧
    Json.getKey (process_resume sampleCollab none
        ⟨some ⟨"r.pdf", [1]⟩, none, none, none⟩ []).response.body "error" = none :=
  partial_profile_is_success sampleCollab none ⟨"r.pdf", [1]⟩ none none none []
    "python experience" "python experience" sampleInfo rfl rfl rfl rfl rfl

/-- No response produced by the `try` block of `/extract-resume`
coincides with the unsupported-format rejection, so that rejection can
only come from the extension check itself. -/
theorem resume_try_ne_unsupported (c : Collaborators) (fn ext path : String)
    (resp : HttpResponse) (h : resume_try c fn ext path = .ok resp) :
    resp ≠ unsupportedResponse := by
  unfold resume_try at h
  cases hx : c.extract_resume_text path with
  | error e =>
    simp only [hx] at h
    exact absurd h (by simp)
  | ok t =>
    simp only [hx] at h
    by_cases hempty : t.isEmpty
    · rw [if_pos hempty] at h
      have hr : resp = ⟨400, Json.jobj [("error", Json.jstr
          "Could not extract text from resume. The file might be corrupted or contain only images.")]⟩ := by
        exact (Except.ok.injEq _ _).mp h.symm
      rw [hr]
      intro hcontra
      have hbody := congrArg HttpResponse.body hcontra
      simp [unsupportedResponse] at hbody
      exact absurd hbody (by decide)
    · rw [if_neg hempty] at h
      cases hcl : c.clean_extracted_text t with
      | error e =>
        simp only [hcl] at h
        exact absurd h (by simp)
      | ok cl =>
        simp only [hcl] at h
        cases hbi : c.extract_basic_info cl t with
        | error e =>
          simp only [hbi] at h
          exact absurd h (by simp)
        | ok bi =>
          simp only [hbi] at h
          have hr : resp = ⟨200, resume_response fn ext cl bi⟩ :=
            (Except.ok.injEq _ _).mp h.symm
          rw [hr]
          intro hcontra
          have hstat := congrArg HttpResponse.status hcontra
          simp [unsupportedResponse] at hstat

/-- C8: format dispatch is decided strictly by the filename extension,
case-insensitively: lowercasing a filename never changes whether the
extension check accepts it; `/extract-resume` returns the
unsupported-format rejection exactly for the filenames the check
rejects; and the decision never depends on the uploaded bytes. -/
theorem dispatch_case_insensitive_no_sniffing :
    (∀ f : String, allowed_check (lowerStr f) = allowed_check f) ∧
    (∀ (c : Collaborators) (fs : List String) (file : FileUpload),
      (extract_resume c ⟨some file⟩ fs).response = unsupportedResponse
        ↔ allowed_check file.filename = false) ∧
    (∀ (c : Collaborators) (fs : List String) (fn : String) (content1 content2 : List Nat),
      extract_resume c ⟨some ⟨fn, content1⟩⟩ fs = extract_resume c ⟨some ⟨fn, content2⟩⟩ fs) := by
  refine ⟨allowed_check_lowerStr, ?_, fun c fs fn c1 c2 => rfl⟩
  intro c fs file
  by_cases hb : allowed_check file.filename
  · have hmem : lowerStr (splitext file.filename).2 ∈ allowed_extensions :=
      List.mem_of_elem_eq_true (by simpa [allowed_check] using hb)
    simp only [hb]
    constructor
    · intro h
      exfalso
      cases ht : resume_try c file.filename (lowerStr (splitext file.filename).2)
          (pathJoin UPLOAD_FOLDER file.filename) with
      | error e =>
        simp [extract_resume, hmem, ht] at h
        have hstat := congrArg HttpResponse.status h
        simp [unsupportedResponse] at hstat
      | ok resp =>
        simp [extract_resume, hmem, ht] at h
        exact resume_try_ne_unsupported c file.filename (lowerStr (splitext file.filename).2)
          (pathJoin UPLOAD_FOLDER file.filename) resp ht h
    · intro h
      exact absurd h (by simp)
  · have hb' : allowed_check file.filename = false := by simpa using hb
    have hmem : lowerStr (splitext file.filename).2 ∉ allowed_extensions := by
      intro hmem
      have h2 : allowed_check file.filename = true := List.elem_eq_true_of_mem hmem
      rw [h2] at hb'
      exact Bool.noConfusion hb'
    simp [extract_resume, hmem, hb']

end CareerNav
